import Mathlib

/-!
Shallow embedding of `tensorpack/train/multigpu.py`: the three multi-GPU
trainer facades (parameter-server, replicated, async), the input-prefetch
policy they share, and the tower-building entry point.

External collaborators that live outside this file's source
(`TrainConfig`, the input-source classes, the graph builders, `RunOp`,
the `Trainer` base) are modelled from the spec, each marked with a
`Modelled from the spec:` doc comment.  Machine execution of TensorFlow
graphs is out of scope: builders are abstract functions supplied by an
environment, and `tf.test.is_gpu_available()` is a boolean parameter.
-/

namespace Tensorpack

/-- Modelled from the spec: an opaque handle to a dataflow object
(the `dataflow` field of TrainConfig); its internals are external. -/
structure DataFlow where
  id : Nat
deriving DecidableEq

/-- Modelled from the spec: an opaque handle to the model definition
(supplies per-device computation, inputs description, loss, optimizer). -/
structure Model where
  id : Nat
deriving DecidableEq

/-- Modelled from the spec: an operation node of the constructed execution
plan (a TensorFlow op); only its identity matters here. -/
structure Op where
  id : Nat
deriving DecidableEq

/-- Modelled from the spec: the input-source classes of
`graph_builder/input_source.py`, which are not under src/.  The
constructors mirror the classes that `multigpu.py` mentions:
`QueueInput` (wraps a dataflow), `StagingInputWrapper` (wraps another
input source with per-device staging areas), `DummyConstantInput`, and
an arbitrary other input source (`feedInput`). -/
inductive InputSource where
  | queueInput (df : DataFlow)
  | stagingInputWrapper (inner : InputSource) (devices : List String)
  | dummyConstantInput (id : Nat)
  | feedInput (id : Nat)
deriving DecidableEq

/-- Modelled from the spec: a lifecycle hook object: "hooks are objects
with a run-phase tag (e.g., 'before first step', 'before every step') and
a verbosity flag".  The fields mirror the keyword arguments that
`multigpu.py` passes to `RunOp`. -/
structure Hook where
  op : Op
  run_before : Bool
  run_as_trigger : Bool
  verbose : Bool
deriving DecidableEq

/-- Modelled from the spec: the `RunOp` callback of `callbacks/graph.py`
(not under src/): a hook that runs the given op, tagged with the given
run-phase flags and verbosity. -/
def RunOp (op : Op) (run_before : Bool) (run_as_trigger : Bool) (verbose : Bool) : Hook :=
  { op := op, run_before := run_before, run_as_trigger := run_as_trigger, verbose := verbose }

/-- Modelled from the spec: the lifecycle system schedules a hook whose
`run_before` tag is set to execute exactly once, in the pre-run phase
before the first training step; a training run of `nSteps` steps does not
re-execute it.  `runCount` is the number of times the hook's op executes
over such a run. -/
def Hook.runCount (h : Hook) (nSteps : Nat) : Nat :=
  if h.run_before then 1 else 0

/-- Modelled from the spec: `TrainConfig` (external, consumed not owned):
"holds device list, model, data/dataflow source, callback list". -/
structure TrainConfig where
  model : Option Model
  data : Option InputSource
  dataflow : Option DataFlow
  tower : List Nat
  callbacks : List Hook
deriving DecidableEq

/-- The only error class of this module: the spec's ConfigurationError
(every failure in `multigpu.py` is a failed precondition `assert`). -/
inductive TrainError where
  | configurationError
deriving DecidableEq

/-- The condition of the `assert` on line 34 of `multigpu.py`:
`(config.data is not None or config.dataflow is not None) and config.model is not None`. -/
def requiredFields (c : TrainConfig) : Bool :=
  (c.data.isSome || c.dataflow.isSome) && c.model.isSome

/-- The input-source normalization step of `apply_prefetch_policy`
(lines 35-38): if `config.data is None and config.dataflow is not None`,
set `config.data = QueueInput(config.dataflow)` and `config.dataflow = None`;
otherwise leave the config unchanged. -/
def normalizeInput (c : TrainConfig) : TrainConfig :=
  if c.data.isNone && c.dataflow.isSome then
    { c with data := c.dataflow.map .queueInput, dataflow := none }
  else c

/-- The `isinstance(config.data, (StagingInputWrapper, DummyConstantInput))`
test on line 43 of `multigpu.py`. -/
def isStagingOrDummy : InputSource → Bool
  | .stagingInputWrapper _ _ => true
  | .dummyConstantInput _ => true
  | _ => false

/-- The device string `'/gpu:{}'.format(k)` built on line 44 of `multigpu.py`. -/
def gpuDevice (k : Nat) : String :=
  "/gpu:" ++ toString k

/-- `apply_prefetch_policy(config, gpu_prefetch)` (lines 33-45 of
`multigpu.py`).  `gpuAvailable` stands for `tf.test.is_gpu_available()`.
A failed Python `assert` is the error result. -/
def apply_prefetch_policy (gpuAvailable : Bool) (config : TrainConfig)
    (gpu_prefetch : Bool) : Except TrainError TrainConfig :=
  if requiredFields config then
    if decide (1 < (normalizeInput config).tower.length) && gpu_prefetch then
      if gpuAvailable then
        match (normalizeInput config).data with
        | some d =>
          if isStagingOrDummy d then .ok (normalizeInput config)
          else .ok { normalizeInput config with
                     data := some (.stagingInputWrapper d
                       ((normalizeInput config).tower.map gpuDevice)) }
        | none => .ok (normalizeInput config)  -- unreachable: after normalization, `requiredFields` forces `data` to be set
      else .error .configurationError
    else .ok (normalizeInput config)
  else .error .configurationError

/-- Modelled from the spec: the external collaborators consumed during
`_setup` (none are under src/): the input source's `setup`, which returns
the input-side lifecycle hooks, and the three graph builders of
`graph_builder/training.py`, each of whose `build` returns the single
apply operation of its aggregation plan (plus, for the replicated
builder, the one-time post-init synchronization op). -/
structure Env where
  inputHooks : InputSource → List Hook
  psBuild : List Nat → String → Op
  replBuild : List Nat → Op × Op
  asyncBuild : List Nat → Bool → Op

/-- The hooks returned by `self._input_source.setup(...)`; `none` is
unreachable after a successful constructor, which always stores a
non-null `config.data`. -/
def hooksOf (env : Env) : Option InputSource → List Hook
  | some s => env.inputHooks s
  | none => []

/-- `SyncMultiGPUTrainerParameterServer`: the trainer object state
(`config` kept by the `Trainer` base, `_input_source`, `_ps_device`, and
the `train_op` that `_setup` stores; `none` until `_setup` runs). -/
structure SyncMultiGPUTrainerParameterServer where
  config : TrainConfig
  input_source : Option InputSource
  ps_device : String
  train_op : Option Op
deriving DecidableEq

/-- `SyncMultiGPUTrainerParameterServer.__init__(config, ps_device, gpu_prefetch)`
(lines 53-65): apply the prefetch policy, store `config.data` as the input
source, then `assert ps_device in ['gpu', 'cpu']`.  No tower is built here:
building happens only in `setup`. -/
def SyncMultiGPUTrainerParameterServer.init (gpuAvailable : Bool) (config : TrainConfig)
    (ps_device : String) (gpu_prefetch : Bool) :
    Except TrainError SyncMultiGPUTrainerParameterServer :=
  match apply_prefetch_policy gpuAvailable config gpu_prefetch with
  | .error e => .error e
  | .ok config =>
    let input_source := config.data
    if ps_device ∈ ["gpu", "cpu"] then
      .ok { config := config, input_source := input_source,
            ps_device := ps_device, train_op := none }
    else .error .configurationError

/-- `SyncMultiGPUTrainerParameterServer._setup` (lines 67-78): obtain the
input-side hooks, build the train op with
`SyncMultiGPUParameterServerBuilder(config.tower, ps_device)`, and extend
`config.callbacks` with the input-side hooks. -/
def SyncMultiGPUTrainerParameterServer.setup (env : Env)
    (t : SyncMultiGPUTrainerParameterServer) : SyncMultiGPUTrainerParameterServer :=
  let callbacks := hooksOf env t.input_source
  let op := env.psBuild t.config.tower t.ps_device
  { t with train_op := some op,
           config := { t.config with callbacks := t.config.callbacks ++ callbacks } }

/-- `SyncMultiGPUTrainer(config)` (lines 81-87): alias for
`SyncMultiGPUTrainerParameterServer(config, ps_device='gpu')`, with
`gpu_prefetch` left at its default `True`. -/
def SyncMultiGPUTrainer (gpuAvailable : Bool) (config : TrainConfig) :
    Except TrainError SyncMultiGPUTrainerParameterServer :=
  SyncMultiGPUTrainerParameterServer.init gpuAvailable config "gpu" true

/-- `SyncMultiGPUTrainerReplicated`: the trainer object state. -/
structure SyncMultiGPUTrainerReplicated where
  config : TrainConfig
  input_source : Option InputSource
  train_op : Option Op
deriving DecidableEq

/-- `SyncMultiGPUTrainerReplicated.__init__(config, gpu_prefetch)`
(lines 94-101). -/
def SyncMultiGPUTrainerReplicated.init (gpuAvailable : Bool) (config : TrainConfig)
    (gpu_prefetch : Bool) : Except TrainError SyncMultiGPUTrainerReplicated :=
  match apply_prefetch_policy gpuAvailable config gpu_prefetch with
  | .error e => .error e
  | .ok config =>
    .ok { config := config, input_source := config.data, train_op := none }

/-- `SyncMultiGPUTrainerReplicated._setup` (lines 103-116): build
`(train_op, post_init_op)` with `SyncMultiGPUReplicatedBuilder`, wrap the
post-init op as `RunOp(lambda: post_init_op, run_before=True,
run_as_trigger=True, verbose=True)`, and extend `config.callbacks` with
`callbacks + [cb]`. -/
def SyncMultiGPUTrainerReplicated.setup (env : Env)
    (t : SyncMultiGPUTrainerReplicated) : SyncMultiGPUTrainerReplicated :=
  let callbacks := hooksOf env t.input_source
  let built := env.replBuild t.config.tower
  let cb := RunOp built.2 true true true
  { t with train_op := some built.1,
           config := { t.config with callbacks := t.config.callbacks ++ (callbacks ++ [cb]) } }

/-- `AsyncMultiGPUTrainer`: the trainer object state. -/
structure AsyncMultiGPUTrainer where
  config : TrainConfig
  input_source : Option InputSource
  scale_gradient : Bool
  train_op : Option Op
deriving DecidableEq

/-- `AsyncMultiGPUTrainer.__init__(config, scale_gradient)` (lines
123-132): note that it calls `apply_prefetch_policy(config)` with
`gpu_prefetch` left at its default `True` and exposes no parameter to
change it. -/
def AsyncMultiGPUTrainer.init (gpuAvailable : Bool) (config : TrainConfig)
    (scale_gradient : Bool) : Except TrainError AsyncMultiGPUTrainer :=
  match apply_prefetch_policy gpuAvailable config true with
  | .error e => .error e
  | .ok config =>
    .ok { config := config, input_source := config.data,
          scale_gradient := scale_gradient, train_op := none }

/-- `AsyncMultiGPUTrainer._setup` (lines 134-145). -/
def AsyncMultiGPUTrainer.setup (env : Env) (t : AsyncMultiGPUTrainer) : AsyncMultiGPUTrainer :=
  let callbacks := hooksOf env t.input_source
  let op := env.asyncBuild t.config.tower t.scale_gradient
  { t with train_op := some op,
           config := { t.config with callbacks := t.config.callbacks ++ callbacks } }

/-- Modelled from the spec: `DataParallelBuilder.build_on_towers` of
`graph_builder/training.py` (not under src/).  Per spec 4.1: replicate
`func` once per tower; "if device count does not match tower count when an
explicit device list is supplied, fail with a configuration error before
any graph construction".  `func` maps a tower index to that tower's
replica; `use_vs` is the variable-scope reuse policy (irrelevant to the
length check). -/
def DataParallelBuilder.build_on_towers {α : Type} (towers : List Nat) (func : Nat → α)
    (devices : Option (List String)) (use_vs : Option (List Bool)) :
    Except TrainError (List α) :=
  match devices with
  | some ds =>
    if ds.length = towers.length then .ok (towers.map func)
    else .error .configurationError
  | none => .ok (towers.map func)

/-- `MultiGPUTrainerBase.build_on_multi_tower` (lines 29-30): forwards to
`DataParallelBuilder.build_on_towers`. -/
def MultiGPUTrainerBase.build_on_multi_tower {α : Type} (towers : List Nat) (func : Nat → α)
    (devices : Option (List String)) (use_vs : Option (List Bool)) :
    Except TrainError (List α) :=
  DataParallelBuilder.build_on_towers towers func devices use_vs

/-! ### Concrete configurations used by witnesses and counterexamples -/

/-- A valid single-tower config with a plain (feed) input source. -/
def cfg1 : TrainConfig :=
  { model := some ⟨0⟩, data := some (.feedInput 0), dataflow := none,
    tower := [0], callbacks := [] }

/-- A valid two-tower config with a plain (feed) input source. -/
def cfg2 : TrainConfig :=
  { model := some ⟨0⟩, data := some (.feedInput 0), dataflow := none,
    tower := [0, 1], callbacks := [] }

/-- A single-tower config that sets BOTH `data` and `dataflow`. -/
def cfgBoth : TrainConfig :=
  { model := some ⟨0⟩, data := some (.feedInput 0), dataflow := some ⟨0⟩,
    tower := [0], callbacks := [] }

/-- A single-tower config with only `dataflow` set. -/
def cfgDF : TrainConfig :=
  { model := some ⟨0⟩, data := none, dataflow := some ⟨0⟩,
    tower := [0], callbacks := [] }

/-- The result of one run of the prefetch policy on `cfg2` with a GPU
available: the data source wrapped for the two configured devices. -/
def cfg2w : TrainConfig :=
  { model := some ⟨0⟩,
    data := some (.stagingInputWrapper (.feedInput 0) ["/gpu:0", "/gpu:1"]),
    dataflow := none, tower := [0, 1], callbacks := [] }

/-- A config with no model (required-field violation). -/
def cfgNoModel : TrainConfig :=
  { model := none, data := some (.feedInput 0), dataflow := none,
    tower := [0], callbacks := [] }

/-! ### Helper lemmas about the prefetch policy -/

lemma normalizeInput_tower (c : TrainConfig) : (normalizeInput c).tower = c.tower := by
  unfold normalizeInput; split <;> rfl

lemma normalizeInput_model (c : TrainConfig) : (normalizeInput c).model = c.model := by
  unfold normalizeInput; split <;> rfl

lemma normalizeInput_callbacks (c : TrainConfig) :
    (normalizeInput c).callbacks = c.callbacks := by
  unfold normalizeInput; split <;> rfl

lemma normalizeInput_of_data_isSome (c : TrainConfig) (h : c.data.isSome = true) :
    normalizeInput c = c := by
  unfold normalizeInput
  rw [if_neg]
  simp [Option.isNone_iff_eq_none, h]
  intro hnone
  rw [hnone] at h
  simp at h

lemma normalizeInput_data_isSome (c : TrainConfig) (h : requiredFields c = true) :
    (normalizeInput c).data.isSome = true := by
  unfold requiredFields at h
  simp only [Bool.and_eq_true, Bool.or_eq_true] at h
  unfold normalizeInput
  split
  next hcond =>
    simp only [Bool.and_eq_true] at hcond
    cases hdf : c.dataflow with
    | none => rw [hdf] at hcond; simp at hcond
    | some df => simp [hdf]
  next hcond =>
    rcases h.1 with hd | hdf
    · exact hd
    · cases hde : c.data with
      | some d => simp
      | none => exact absurd (by simp [hde, hdf]) hcond

lemma requiredFields_model (c : TrainConfig) (h : requiredFields c = true) :
    c.model.isSome = true := by
  unfold requiredFields at h
  simp only [Bool.and_eq_true] at h
  exact h.2

/-- Everything a successful run of `apply_prefetch_policy` guarantees
about its result, used to show idempotence and the normalization
invariant. -/
lemma apply_prefetch_policy_ok_inv (g gp : Bool) (c c' : TrainConfig)
    (h : apply_prefetch_policy g c gp = .ok c') :
    c'.data.isSome = true ∧ c'.model.isSome = true ∧ c'.tower = c.tower ∧
    c'.dataflow = (normalizeInput c).dataflow ∧
    ((decide (1 < c.tower.length) && gp) = true →
      g = true ∧ ∃ d, c'.data = some d ∧ isStagingOrDummy d = true) := by
  unfold apply_prefetch_policy at h
  split at h
  case isFalse => exact absurd h (by simp)
  case isTrue hreq =>
  split at h
  case isFalse hcond =>
    rw [normalizeInput_tower] at hcond
    cases h
    refine ⟨normalizeInput_data_isSome c hreq, ?_, normalizeInput_tower c, rfl, ?_⟩
    · rw [normalizeInput_model]; exact requiredFields_model c hreq
    · intro hpre; exact absurd hpre hcond
  case isTrue hcond =>
  rw [normalizeInput_tower] at hcond
  split at h
  case isFalse => exact absurd h (by simp)
  case isTrue hg =>
  split at h
  next d hd =>
    split at h
    next hsd =>
      cases h
      refine ⟨?_, ?_, normalizeInput_tower c, rfl, ?_⟩
      · rw [hd]; rfl
      · rw [normalizeInput_model]; exact requiredFields_model c hreq
      · intro _; exact ⟨hg, d, hd, hsd⟩
    next hsd =>
      cases h
      refine ⟨rfl, ?_, normalizeInput_tower c, rfl, ?_⟩
      · show (normalizeInput c).model.isSome = true
        rw [normalizeInput_model]; exact requiredFields_model c hreq
      · intro _
        exact ⟨hg, .stagingInputWrapper d ((normalizeInput c).tower.map gpuDevice), rfl, rfl⟩
  next hd =>
    have hsome := normalizeInput_data_isSome c hreq
    rw [hd] at hsome
    simp at hsome

/-! ### Claim theorems -/

/-- C1: constructing `SyncMultiGPUTrainerParameterServer` with a `ps_device`
value that is neither "gpu" nor "cpu" (for example "tpu") fails with a
configuration error during construction, for every configuration, prefetch
flag and GPU availability.  No tower replica is built: tower building
happens only in `setup`, which needs a successfully constructed trainer. -/
theorem C1_invalid_ps_device_errors (g : Bool) (c : TrainConfig) (ps : String) (gp : Bool)
    (h : ps ∉ ["gpu", "cpu"]) :
    SyncMultiGPUTrainerParameterServer.init g c ps gp = .error .configurationError := by
  unfold SyncMultiGPUTrainerParameterServer.init
  split
  next e he => cases e; rfl
  next c2 he => rw [if_neg h]

/-- C1 witness: the concrete invalid value "tpu" on a valid config. -/
theorem C1_witness :
    "tpu" ∉ ["gpu", "cpu"]
    ∧ SyncMultiGPUTrainerParameterServer.init true cfg1 "tpu" true
        = .error .configurationError :=
  ⟨by decide, C1_invalid_ps_device_errors true cfg1 "tpu" true (by decide)⟩

/-- C2: the replicated trainer's `setup` appends to the callback list a
hook wrapping the builder's post-init synchronization op, with
`run_before` set (scheduled before any training step), `verbose` set
(visible to the operator), and — under the spec's lifecycle model — an
execution count of exactly one over a whole training run of any length. -/
theorem C2_post_init_sync_hook (env : Env) (t : SyncMultiGPUTrainerReplicated) :
    (t.setup env).config.callbacks
      = t.config.callbacks ++ (hooksOf env t.input_source
          ++ [RunOp (env.replBuild t.config.tower).2 true true true])
    ∧ (RunOp (env.replBuild t.config.tower).2 true true true).run_before = true
    ∧ (RunOp (env.replBuild t.config.tower).2 true true true).verbose = true
    ∧ ∀ nSteps : Nat,
        (RunOp (env.replBuild t.config.tower).2 true true true).runCount nSteps = 1 :=
  ⟨rfl, rfl, rfl, fun _ => rfl⟩

/-- C3 counterexample: the claim fails for the async variant, which has no
`gpu_prefetch` parameter.  With two configured devices and no accelerator
available, `AsyncMultiGPUTrainer` construction fails for BOTH values of
its only boolean parameter (`scale_gradient`): nothing in the async
constructor's configuration surface disables the prefetch path, while the
claim requires a `gpu_prefetch = false` mode that skips it. -/
theorem C3_counterexample :
    AsyncMultiGPUTrainer.init false cfg2 true = .error .configurationError
    ∧ AsyncMultiGPUTrainer.init false cfg2 false = .error .configurationError :=
  ⟨rfl, rfl⟩

/-- C3 amended: `gpu_prefetch` is a constructor parameter of the
parameter-server and replicated trainers only; the async trainer always
applies the prefetch policy with `gpu_prefetch = True`.  The policy itself
behaves as claimed: with more than one configured device and prefetch
requested but no accelerator available, it fails with a configuration
error; with one device or `gpu_prefetch = false` it returns the normalized
config with no staging wrapper inserted. -/
theorem C3_amended_prefetch_policy (g gp : Bool) (c : TrainConfig)
    (hreq : requiredFields c = true) :
    (gp = true → 1 < c.tower.length → g = false →
        apply_prefetch_policy g c gp = .error .configurationError)
    ∧ ((c.tower.length ≤ 1 ∨ gp = false) →
        apply_prefetch_policy g c gp = .ok (normalizeInput c))
    ∧ (∀ s : Bool, AsyncMultiGPUTrainer.init g c s =
        (apply_prefetch_policy g c true).map
          (fun c2 => { config := c2, input_source := c2.data,
                       scale_gradient := s, train_op := none })) := by
  refine ⟨?_, ?_, ?_⟩
  · intro hgp htower hgf
    subst hgp; subst hgf
    unfold apply_prefetch_policy
    rw [if_pos hreq, normalizeInput_tower,
        if_pos (by simp [htower] : (decide (1 < c.tower.length) && true) = true)]
    simp
  · intro hcase
    unfold apply_prefetch_policy
    rw [if_pos hreq, normalizeInput_tower, if_neg]
    rcases hcase with h1 | h2
    · simp; omega
    · simp [h2]
  · intro s
    unfold AsyncMultiGPUTrainer.init
    cases he : apply_prefetch_policy g c true with
    | error e => rfl
    | ok c2 => rfl

/-- C3 witness: a valid single-tower config, where the policy succeeds and
inserts no staging wrapper. -/
theorem C3_witness :
    requiredFields cfg1 = true
    ∧ apply_prefetch_policy true cfg1 true = .ok (normalizeInput cfg1) :=
  ⟨by decide,
   (C3_amended_prefetch_policy true true cfg1 (by decide)).2.1 (Or.inl (by decide))⟩

/-- C4 counterexample: a config with BOTH `data` and `dataflow` set passes
the required-field check, and after the normalization step both are still
non-null — the normalization only fires when `data` is null. -/
theorem C4_counterexample :
    apply_prefetch_policy true cfgBoth true = .ok cfgBoth
    ∧ cfgBoth.data.isSome = true ∧ cfgBoth.dataflow.isSome = true :=
  ⟨rfl, rfl, rfl⟩

/-- C4 amended: for every configuration that passes the required-field
check AND does not set both `data` and `dataflow`, after the input-source
normalization step exactly one of them is non-null (namely `data`, with
`dataflow` null); the same holds for the final config of any successful
run of `apply_prefetch_policy`. -/
theorem C4_amended_normalization (g gp : Bool) (c : TrainConfig)
    (hreq : requiredFields c = true)
    (hone : c.data = none ∨ c.dataflow = none) :
    ((normalizeInput c).data.isSome = true ∧ (normalizeInput c).dataflow = none)
    ∧ ∀ c', apply_prefetch_policy g c gp = .ok c' →
        (c'.data.isSome = true ∧ c'.dataflow = none) := by
  have hdf : (normalizeInput c).dataflow = none := by
    unfold normalizeInput
    split
    · rfl
    next hcond =>
      rcases hone with hd | hdfe
      · cases hdfe2 : c.dataflow with
        | none => rfl
        | some df => exact absurd (by simp [hd, hdfe2]) hcond
      · exact hdfe
  refine ⟨⟨normalizeInput_data_isSome c hreq, hdf⟩, ?_⟩
  intro c' h
  obtain ⟨h1, _, _, h4, _⟩ := apply_prefetch_policy_ok_inv g gp c c' h
  exact ⟨h1, h4.trans hdf⟩

/-- C4 witness: a config with only `dataflow` set; after normalization
`data` is non-null and `dataflow` is null. -/
theorem C4_witness :
    (normalizeInput cfgDF).data.isSome = true ∧ (normalizeInput cfgDF).dataflow = none :=
  (C4_amended_normalization true true cfgDF (by decide) (Or.inl rfl)).1

/-- C5: constructing any of the three trainers with a null model, or with
both `data` and `dataflow` null, fails with a configuration error at
construction time, for every GPU availability, `ps_device`, prefetch and
scale-gradient setting. -/
theorem C5_missing_required_config_errors (c : TrainConfig)
    (h : c.model = none ∨ (c.data = none ∧ c.dataflow = none)) :
    ∀ (g : Bool) (ps : String) (gp s : Bool),
      SyncMultiGPUTrainerParameterServer.init g c ps gp = .error .configurationError
      ∧ SyncMultiGPUTrainerReplicated.init g c gp = .error .configurationError
      ∧ AsyncMultiGPUTrainer.init g c s = .error .configurationError := by
  intro g ps gp s
  have hreq : requiredFields c = false := by
    unfold requiredFields
    rcases h with hm | ⟨hd, hdf⟩
    · simp [hm]
    · simp [hd, hdf]
  have hpol : ∀ gp2 : Bool, apply_prefetch_policy g c gp2 = .error .configurationError := by
    intro gp2
    unfold apply_prefetch_policy
    rw [hreq]
    simp
  refine ⟨?_, ?_, ?_⟩
  · unfold SyncMultiGPUTrainerParameterServer.init
    rw [hpol gp]
  · unfold SyncMultiGPUTrainerReplicated.init
    rw [hpol gp]
  · unfold AsyncMultiGPUTrainer.init
    rw [hpol true]

/-- C5 witness: the concrete no-model config fails in all three
constructors. -/
theorem C5_witness :
    (cfgNoModel.model = none ∨ (cfgNoModel.data = none ∧ cfgNoModel.dataflow = none))
    ∧ SyncMultiGPUTrainerParameterServer.init true cfgNoModel "gpu" true
        = .error .configurationError
    ∧ SyncMultiGPUTrainerReplicated.init true cfgNoModel true = .error .configurationError
    ∧ AsyncMultiGPUTrainer.init true cfgNoModel true = .error .configurationError :=
  ⟨Or.inl rfl, C5_missing_required_config_errors cfgNoModel (Or.inl rfl) true "gpu" true true⟩

/-- C6: the tower-building entry point, given an explicit device list whose
length differs from the number of towers, fails with a configuration error
for EVERY tower-computation function — the function is never invoked, so
zero graph replicas are built. -/
theorem C6_device_mismatch_errors {α : Type} (towers : List Nat) (ds : List String)
    (use_vs : Option (List Bool)) (h : ds.length ≠ towers.length) :
    ∀ func : Nat → α,
      MultiGPUTrainerBase.build_on_multi_tower towers func (some ds) use_vs
        = .error .configurationError := by
  intro func
  unfold MultiGPUTrainerBase.build_on_multi_tower DataParallelBuilder.build_on_towers
  exact if_neg h

/-- C6 witness: two towers with a one-element device list. -/
theorem C6_witness :
    (["/gpu:0"].length ≠ ([0, 1] : List Nat).length)
    ∧ MultiGPUTrainerBase.build_on_multi_tower [0, 1] (fun k : Nat => k)
        (some ["/gpu:0"]) none = .error .configurationError :=
  ⟨by decide, C6_device_mismatch_errors [0, 1] ["/gpu:0"] none (by decide) (fun k => k)⟩

/-- C7: after `setup`, each trainer variant stores exactly one
training-step operation — the apply operation returned by its strategy's
builder — as its `train_op`. -/
theorem C7_single_train_op (env : Env) (tps : SyncMultiGPUTrainerParameterServer)
    (trep : SyncMultiGPUTrainerReplicated) (tas : AsyncMultiGPUTrainer) :
    (tps.setup env).train_op = some (env.psBuild tps.config.tower tps.ps_device)
    ∧ (trep.setup env).train_op = some (env.replBuild trep.config.tower).1
    ∧ (tas.setup env).train_op = some (env.asyncBuild tas.config.tower tas.scale_gradient) :=
  ⟨rfl, rfl, rfl⟩

/-- C8: each trainer's `setup` only appends to the callback list: the new
list is the old list followed by the input-side hooks (plus, for the
replicated variant only, the post-init-sync hook), so every pre-existing
entry stays present in its original relative order. -/
theorem C8_callbacks_appended (env : Env) (tps : SyncMultiGPUTrainerParameterServer)
    (trep : SyncMultiGPUTrainerReplicated) (tas : AsyncMultiGPUTrainer) :
    (tps.setup env).config.callbacks
      = tps.config.callbacks ++ hooksOf env tps.input_source
    ∧ (trep.setup env).config.callbacks
      = trep.config.callbacks ++ (hooksOf env trep.input_source
          ++ [RunOp (env.replBuild trep.config.tower).2 true true true])
    ∧ (tas.setup env).config.callbacks
      = tas.config.callbacks ++ hooksOf env tas.input_source :=
  ⟨rfl, rfl, rfl⟩

/-- C9: `SyncMultiGPUTrainer(config)` is definitionally
`SyncMultiGPUTrainerParameterServer(config, ps_device='gpu',
gpu_prefetch=True)`; consequently running `setup` on either yields the
same train op and the same registered hooks in every environment. -/
theorem C9_sync_trainer_alias (g : Bool) (c : TrainConfig) :
    SyncMultiGPUTrainer g c = SyncMultiGPUTrainerParameterServer.init g c "gpu" true
    ∧ ∀ env : Env,
        (SyncMultiGPUTrainer g c).map (fun t => t.setup env)
          = (SyncMultiGPUTrainerParameterServer.init g c "gpu" true).map
              (fun t => t.setup env) :=
  ⟨rfl, fun _ => rfl⟩

/-- C10: `apply_prefetch_policy` is idempotent: if it accepts a config and
produces `c'`, applying it again (same `gpu_prefetch`, same GPU
availability) returns `c'` unchanged — the dataflow is not re-wrapped in
a queue input and an already-staging-wrapped source is not wrapped again. -/
theorem C10_prefetch_policy_idempotent (g gp : Bool) (c c' : TrainConfig)
    (h : apply_prefetch_policy g c gp = .ok c') :
    apply_prefetch_policy g c' gp = .ok c' := by
  obtain ⟨hdata, hmodel, htower, hdfl, hwrap⟩ := apply_prefetch_policy_ok_inv g gp c c' h
  have hreq' : requiredFields c' = true := by
    unfold requiredFields
    simp [hdata, hmodel]
  have hnorm : normalizeInput c' = c' := normalizeInput_of_data_isSome c' hdata
  unfold apply_prefetch_policy
  rw [if_pos hreq', hnorm]
  by_cases hc : (decide (1 < c'.tower.length) && gp) = true
  · rw [if_pos hc]
    rw [htower] at hc
    obtain ⟨hg, d, hd, hsd⟩ := hwrap hc
    subst hg
    rw [if_pos rfl, hd]
    simp [hsd]
  · rw [if_neg hc]

/-- C10 witness: a two-tower config whose first run wraps the input source
in a staging wrapper; the second run leaves it untouched. -/
theorem C10_witness :
    apply_prefetch_policy true cfg2 true = .ok cfg2w
    ∧ apply_prefetch_policy true cfg2w true = .ok cfg2w :=
  ⟨rfl, C10_prefetch_policy_idempotent true true cfg2 cfg2w rfl⟩

end Tensorpack
